import Mathlib

/-!
Shallow embedding of the adaptive worker thread pool in
`src/framework/utils/thread_pool.py` (`ThreadPool`, `ThreadPoolConfig`,
`_Task`, the worker loop, the admission / reject policies, timeout
enforcement and the shutdown protocol), together with theorems settling
the specification claims about it.

Conventions: durations are modelled as `Nat`; the set of worker threads
(`self._workers`) is modelled by its length where only counts matter and
by a list of thread ids where join order matters; a `concurrent.futures.Future`
is a write-once cell modelled by `FutureState`.
-/

namespace ThreadPoolModel

/-- Reject policies, mirroring `RejectPolicy` in the source. -/
inductive RejectPolicy where
  | abort
  | discard
  | discardOldest
  | callerRuns
deriving DecidableEq, Repr

/-- Error values a future can be resolved with.  `rejectedQueueFull` and
`rejectedDiscardFailed` are the two `RejectedExecutionError` cases,
`shutdownError` is `ThreadPoolShutdownError`, `taskTimeout t` is the
`TimeoutError` raised after `t` seconds, `loopUnavailable` is the
`RuntimeError` for a closed event loop, `cancelledError` is
`concurrent.futures.CancelledError`, and `userError n` stands for an
arbitrary exception raised by user code. -/
inductive PoolError where
  | rejectedQueueFull
  | rejectedDiscardFailed
  | shutdownError
  | taskTimeout (seconds : Nat)
  | loopUnavailable
  | cancelledError
  | userError (code : Nat)
deriving DecidableEq, Repr

/-- State of a `concurrent.futures.Future`: write-once, exactly one of
value / error / cancelled once it leaves `pending`. -/
inductive FutureState (α : Type) where
  | pending
  | result (v : α)
  | error (e : PoolError)
  | cancelled
deriving DecidableEq, Repr

/-- `Future.cancelled()`. -/
def FutureState.isCancelled {α : Type} : FutureState α → Bool
  | .cancelled => true
  | _ => false

/-- Whether a future is still pending (unresolved). -/
def FutureState.isPending {α : Type} : FutureState α → Bool
  | .pending => true
  | _ => false

/-- Outcome of running a task body: a returned value or a raised
exception. -/
inductive TaskOutcome (α : Type) where
  | ok (v : α)
  | raise (e : PoolError)
deriving DecidableEq, Repr

/-- `Future.cancel()`: a pending future becomes cancelled; a completed
future is unchanged (cancel returns False there). -/
def futureCancel {α : Type} : FutureState α → FutureState α
  | .pending => .cancelled
  | f => f

/-- `Future.set_exception(e)`: succeeds only from `pending`; on any other
state CPython raises `InvalidStateError`, modelled by `none`. -/
def setException {α : Type} (f : FutureState α) (e : PoolError) :
    Option (FutureState α) :=
  match f with
  | .pending => some (.error e)
  | _ => none

/-- Configuration, mirroring `ThreadPoolConfig` (the fields the claims
depend on; `ge`/validator constraints are captured by `ConfigValid`). -/
structure ThreadPoolConfig where
  min_workers : Nat := 1
  max_workers : Nat := 10
  queue_size : Nat := 0
  keep_alive_time : Nat := 60
  reject_policy : RejectPolicy := .abort
  shutdown_wait : Bool := true
  shutdown_timeout : Option Nat := none
  task_timeout : Option Nat := none
  enable_metrics : Bool := false
deriving DecidableEq, Repr

/-- The pydantic field bounds (`min_workers ≥ 1`, `max_workers ≥ 1`)
together with the `validate_workers` model validator
(`max_workers ≥ min_workers`). -/
def ConfigValid (cfg : ThreadPoolConfig) : Prop :=
  1 ≤ cfg.min_workers ∧ 1 ≤ cfg.max_workers ∧ cfg.min_workers ≤ cfg.max_workers

instance (cfg : ThreadPoolConfig) : Decidable (ConfigValid cfg) := by
  unfold ConfigValid; infer_instance

/-! ### Worker registry state machine

`RegState` abstracts the fields guarded by `self._workers_lock`:
`len(self._workers)`, `self._active_workers`, `self._worker_id_counter`,
plus the `self._shutdown` flag. -/

structure RegState where
  workers : Nat
  active_workers : Nat
  worker_id_counter : Nat
  shutdownFlag : Bool
deriving DecidableEq, Repr

/-- State of the registry before `ThreadPool.__init__` starts the core
workers. -/
def initRegState : RegState :=
  { workers := 0, active_workers := 0, worker_id_counter := 0, shutdownFlag := false }

/-- `ThreadPool._start_workers(count)`: loop `count` times; each
iteration breaks if `len(self._workers) >= max_workers`, otherwise
increments the id counter, starts one thread, appends it and increments
`_active_workers`. -/
def startWorkers (cfg : ThreadPoolConfig) : Nat → RegState → RegState
  | 0, s => s
  | n + 1, s =>
    if cfg.max_workers ≤ s.workers then s
    else
      startWorkers cfg n
        { workers := s.workers + 1
          active_workers := s.active_workers + 1
          worker_id_counter := s.worker_id_counter + 1
          shutdownFlag := s.shutdownFlag }

/-- The dynamic-growth step at the end of `ThreadPool.submit` /
`submit_async`: under `_workers_lock`, if
`len(self._workers) < max_workers and self._active_workers < len(self._workers)`
then `_start_workers(1)`. -/
def submitGrowth (cfg : ThreadPoolConfig) (s : RegState) : RegState :=
  if s.workers < cfg.max_workers ∧ s.active_workers < s.workers then
    startWorkers cfg 1 s
  else s

/-- The recycle branch of `ThreadPool._worker_loop`: under
`_workers_lock`, if `len(self._workers) > min_workers` the idle worker
removes itself and decrements `_active_workers`. -/
def retireWorker (cfg : ThreadPoolConfig) (s : RegState) : RegState :=
  if cfg.min_workers < s.workers then
    { s with workers := s.workers - 1, active_workers := s.active_workers - 1 }
  else s

/-- The `self._shutdown = True` transition of `ThreadPool.shutdown`. -/
def setShutdownFlag (s : RegState) : RegState :=
  { s with shutdownFlag := true }

/-- Registry states reachable from construction
(`_start_workers(min_workers)` in `__init__`) by the transitions the
source performs: dynamic growth on submit (only while not shut down),
idle retirement, and shutdown. -/
inductive ReachableReg (cfg : ThreadPoolConfig) : RegState → Prop where
  | init : ReachableReg cfg (startWorkers cfg cfg.min_workers initRegState)
  | grow {s : RegState} (hr : ReachableReg cfg s) (hs : s.shutdownFlag = false) :
      ReachableReg cfg (submitGrowth cfg s)
  | retire {s : RegState} (hr : ReachableReg cfg s) :
      ReachableReg cfg (retireWorker cfg s)
  | shutdown {s : RegState} (hr : ReachableReg cfg s) :
      ReachableReg cfg (setShutdownFlag s)

/-- The registry invariant maintained by every transition: worker count
between the configured bounds, and `_active_workers` equal to
`len(self._workers)`. -/
def RegInv (cfg : ThreadPoolConfig) (s : RegState) : Prop :=
  cfg.min_workers ≤ s.workers ∧ s.workers ≤ cfg.max_workers ∧
    s.active_workers = s.workers

/-! ### Task queue and admission control

`self._task_queue` is a `queue.Queue` with `maxsize = queue_size`
(`0` meaning unbounded); it is modelled as a FIFO list of `QTask`s.
A `QTask` mirrors `_Task`: its future's current state, a tag for
coroutine tasks, the per-task timeout, and the outcome its body would
produce if it were run. -/

structure QTask (α : Type) where
  future : FutureState α
  is_coroutine : Bool
  timeout : Option Nat
  body : TaskOutcome α
deriving DecidableEq, Repr

/-- `put_nowait` raises `queue.Full` exactly when the queue is bounded
and holds `maxsize` items. -/
def queueFull {α : Type} (cfg : ThreadPoolConfig) (q : List (QTask α)) : Bool :=
  0 < cfg.queue_size && cfg.queue_size ≤ q.length

/-- Outcome of `ThreadPool._handle_reject(task)`: the queue afterwards,
the state of the rejected task's future, the state of the popped oldest
task's future under DiscardOldest (`none` when nothing was popped), and
the increment applied to the `rejected_tasks` counter. -/
structure RejectResult (α : Type) where
  queue : List (QTask α)
  taskFuture : FutureState α
  poppedFuture : Option (FutureState α)
  rejectedDelta : Nat
deriving DecidableEq, Repr

/-- `ThreadPool._handle_reject`, line by line: bump `rejected_tasks`;
Abort sets `RejectedExecutionError("Task queue is full")` on the task's
future; Discard cancels it; DiscardOldest pops the oldest queued task
with `get_nowait`, cancels its future and re-enqueues the new task,
falling back to `RejectedExecutionError("Failed to discard oldest task")`
when the queue is empty; CallerRuns runs the body on the calling thread
and writes its value or exception into the future. -/
def handleReject {α : Type} (cfg : ThreadPoolConfig) (q : List (QTask α))
    (task : QTask α) : RejectResult α :=
  match cfg.reject_policy with
  | .abort =>
      { queue := q, taskFuture := .error .rejectedQueueFull,
        poppedFuture := none, rejectedDelta := 1 }
  | .discard =>
      { queue := q, taskFuture := futureCancel task.future,
        poppedFuture := none, rejectedDelta := 1 }
  | .discardOldest =>
      match q with
      | [] =>
          { queue := [], taskFuture := .error .rejectedDiscardFailed,
            poppedFuture := none, rejectedDelta := 1 }
      | old :: rest =>
          { queue := rest ++ [task], taskFuture := task.future,
            poppedFuture := some (futureCancel old.future), rejectedDelta := 1 }
  | .callerRuns =>
      { queue := q,
        taskFuture :=
          match task.body with
          | .ok v => .result v
          | .raise e => .error e,
        poppedFuture := none, rejectedDelta := 1 }

/-- Result of the synchronous `ThreadPool.submit` call: either an
exception propagated to the caller (`raised`), or a returned future
together with the queue afterwards and the admission bookkeeping. -/
inductive SubmitOutcome (α : Type) where
  | raised (e : PoolError)
  | returned (fut : FutureState α) (q : List (QTask α))
      (popped : Option (FutureState α)) (rejectedDelta : Nat)
deriving DecidableEq, Repr

/-- `ThreadPool.submit`: raise `ThreadPoolShutdownError` if the pool is
shut down; otherwise build the task with a fresh pending future and
`timeout = config.task_timeout`, try `put_nowait`, and on `queue.Full`
run `_handle_reject` and return the future anyway. -/
def submit {α : Type} (cfg : ThreadPoolConfig) (shutdownFlag : Bool)
    (q : List (QTask α)) (body : TaskOutcome α) : SubmitOutcome α :=
  if shutdownFlag then .raised .shutdownError
  else
    let task : QTask α :=
      { future := .pending, is_coroutine := false,
        timeout := cfg.task_timeout, body := body }
    if queueFull cfg q then
      let r := handleReject cfg q task
      .returned r.taskFuture r.queue r.poppedFuture r.rejectedDelta
    else
      .returned .pending (q ++ [task]) none 0

/-- Result of the synchronous prefix of `ThreadPool.submit_async` (the
code up to its first `await`): `raised` when an exception reaches the
caller synchronously; `awaiting` when the coroutine suspends on
`asyncio.wrap_future` over a pending future; `immediate` when the future
is already resolved so the await returns at once; `blockedOnPending`
when `task.future.exception()` is called on a still-pending future and
blocks the calling thread until it resolves. -/
inductive AsyncOutcome (α : Type) where
  | raised (e : PoolError)
  | awaiting (q : List (QTask α))
  | immediate (v : α) (q : List (QTask α))
  | blockedOnPending (q : List (QTask α))
deriving DecidableEq, Repr

/-- `ThreadPool.submit_async`: raise `ThreadPoolShutdownError` if shut
down; otherwise enqueue a coroutine task; on `queue.Full` run
`_handle_reject`, then call `task.future.exception()` — which raises
`CancelledError` on a cancelled future, blocks on a pending one, and
otherwise returns the exception or `None` — re-raise a non-`None`
exception to the caller, else await the future. -/
def submitAsync {α : Type} (cfg : ThreadPoolConfig) (shutdownFlag : Bool)
    (q : List (QTask α)) (body : TaskOutcome α) : AsyncOutcome α :=
  if shutdownFlag then .raised .shutdownError
  else
    let task : QTask α :=
      { future := .pending, is_coroutine := true,
        timeout := cfg.task_timeout, body := body }
    if queueFull cfg q then
      let r := handleReject cfg q task
      match r.taskFuture with
      | .cancelled => .raised .cancelledError
      | .error e => .raised e
      | .result v => .immediate v r.queue
      | .pending => .blockedOnPending r.queue
    else
      .awaiting (q ++ [task])

/-! ### Timeout enforcement in `_execute_sync_task`

The worker runs the body on a separate daemon thread, joins it with the
task's timeout, and inspects the `done` flag of the shared result
container.  `doneWithin` models which side of the race the join
observes.  `writes` records every `set_result` / `set_exception`
performed on the task's future, in order. -/

inductive FWrite (α : Type) where
  | value (v : α)
  | error (e : PoolError)
deriving DecidableEq, Repr

structure SyncExec (α : Type) where
  fut : FutureState α
  writes : List (FWrite α)
  completedDelta : Nat
  failedDelta : Nat
deriving DecidableEq, Repr

/-- `ThreadPool._execute_sync_task`: return immediately on a cancelled
future; with a timeout, join the spawned thread for `timeout` seconds —
if the container is not `done`, set `TimeoutError` and return (the
background thread keeps running but only ever writes into the local
container, never the future); if done, propagate the recorded exception
or value.  Without a timeout, run the body inline; a raised exception
reaches the outer handler which sets it on the future and counts a
failed task, while the timeout-branch exception path counts a completed
task (the source increments `completed_tasks` after either inner set). -/
def executeSyncTask {α : Type} (cfg : ThreadPoolConfig) (fut : FutureState α)
    (timeout : Option Nat) (doneWithin : Bool) (outcome : TaskOutcome α) :
    SyncExec α :=
  let m : Nat := if cfg.enable_metrics then 1 else 0
  if fut.isCancelled then
    { fut := fut, writes := [], completedDelta := 0, failedDelta := 0 }
  else
    match timeout with
    | some t =>
        if doneWithin = false then
          { fut := .error (.taskTimeout t), writes := [.error (.taskTimeout t)],
            completedDelta := 0, failedDelta := 0 }
        else
          match outcome with
          | .raise e =>
              { fut := .error e, writes := [.error e],
                completedDelta := m, failedDelta := 0 }
          | .ok v =>
              { fut := .result v, writes := [.value v],
                completedDelta := m, failedDelta := 0 }
    | none =>
        match outcome with
        | .ok v =>
            { fut := .result v, writes := [.value v],
              completedDelta := m, failedDelta := 0 }
        | .raise e =>
            { fut := .error e, writes := [.error e],
              completedDelta := 0, failedDelta := m }

/-! ### Worker behaviour on dequeue after shutdown -/

structure DrainResult (α : Type) where
  executed : Bool
  fut : FutureState α
  taskDoneCalled : Bool
  exitsLoop : Bool
deriving DecidableEq, Repr

/-- The section of `ThreadPool._worker_loop` that runs after a task has
been obtained with `get_nowait`: if `self._shutdown_event.is_set()`, the
task is not executed — if its future is not already cancelled it gets
`ThreadPoolShutdownError` via `set_exception` — `task_done` is called
and the loop breaks.  Otherwise the (synchronous) task is executed via
`_execute_task` and the loop continues. -/
def workerPostDequeue {α : Type} (cfg : ThreadPoolConfig) (shutdownSet : Bool)
    (task : QTask α) (doneWithin : Bool) : DrainResult α :=
  if shutdownSet then
    { executed := false
      fut :=
        if task.future.isCancelled then task.future
        else
          match setException task.future .shutdownError with
          | some f => f
          | none => task.future
      taskDoneCalled := true
      exitsLoop := true }
  else
    { executed := true
      fut := (executeSyncTask cfg task.future task.timeout doneWithin task.body).fut
      taskDoneCalled := true
      exitsLoop := false }

/-! ### Shutdown protocol

`ThreadPool.shutdown(wait, timeout)` is modelled as a step on a
`ShutState` that also emits the ordered trace of its blocking /
signalling actions.  Worker threads are identified by natural numbers;
a blocking `worker.join()` (no timeout, the worker has certainly
stopped when it returns) is distinguished from a timed
`worker.join(timeout=...)` (which may return while the worker is still
running). -/

inductive ShutdownEvent where
  | setShutdownEvent
  | notifyAll
  | queueJoin
  | pollQueueTimed
  | joinWorkerBlocking (id : Nat)
  | joinWorkerTimed (id : Nat)
  | stopLoop
  | joinLoopThread
deriving DecidableEq, Repr

/-- The pool state observable by `shutdown`: the `self._shutdown` flag,
whether the event loop is still open, and the worker threads in
`self._workers`. -/
structure ShutState where
  shutdownFlag : Bool
  loopOpen : Bool
  workers : List Nat
deriving DecidableEq, Repr

/-- `ThreadPool.shutdown(wait, timeout)`: return immediately when
`self._shutdown` is already set; otherwise set the flag, set the
shutdown event and `notify_all` the worker condition; when `wait` is
true, either (effective timeout — `timeout` if given, else
`config.shutdown_timeout` — present) poll the queue then join every
worker with a timeout, or
(no timeout) `queue.join()` then join every worker blocking; finally,
when the event loop is still open, stop it and join its thread. -/
def shutdownStep (wait : Bool) (timeout : Option Nat)
    (cfgShutdownTimeout : Option Nat) (s : ShutState) :
    ShutState × List ShutdownEvent :=
  if s.shutdownFlag then (s, [])
  else
    let waitTimeout : Option Nat :=
      match timeout with
      | some t => some t
      | none => cfgShutdownTimeout
    let joinEvents : List ShutdownEvent :=
      if wait then
        match waitTimeout with
        | some _ =>
            .pollQueueTimed :: s.workers.map (fun id => .joinWorkerTimed id)
        | none =>
            .queueJoin :: s.workers.map (fun id => .joinWorkerBlocking id)
      else []
    let loopEvents : List ShutdownEvent :=
      if s.loopOpen then [.stopLoop, .joinLoopThread] else []
    ({ shutdownFlag := true, loopOpen := false, workers := s.workers },
      [.setShutdownEvent, .notifyAll] ++ joinEvents ++ loopEvents)

def ShutdownEvent.isStopLoop : ShutdownEvent → Bool
  | .stopLoop => true
  | _ => false

/-- The part of a shutdown trace that runs before the event loop is
stopped. -/
def beforeStop (tr : List ShutdownEvent) : List ShutdownEvent :=
  tr.takeWhile (fun e => !e.isStopLoop)

/-! ### Metrics snapshot -/

structure MetricsSnapshot where
  active_workers : Nat
  total_workers : Nat
  queue_size : Nat
  completed_tasks : Nat
  failed_tasks : Nat
  rejected_tasks : Nat
deriving DecidableEq, Repr

/-- `ThreadPool.get_metrics`: `None` when metrics are disabled,
otherwise a snapshot taken under `_workers_lock` of
`self._active_workers`, `len(self._workers)`, `qsize()` and the three
counters. -/
def getMetrics (cfg : ThreadPoolConfig) (s : RegState)
    (queueLen completed failed rejected : Nat) : Option MetricsSnapshot :=
  if cfg.enable_metrics = false then none
  else
    some
      { active_workers := s.active_workers
        total_workers := s.workers
        queue_size := queueLen
        completed_tasks := completed
        failed_tasks := failed
        rejected_tasks := rejected }

/-! ### Helper lemmas shared between claims -/

def SubmitOutcome.isRaised {α : Type} : SubmitOutcome α → Bool
  | .raised _ => true
  | _ => false

/-- Number of worker-thread join calls in a shutdown trace. -/
def countWorkerJoins : List ShutdownEvent → Nat
  | [] => 0
  | .joinWorkerBlocking _ :: tr => countWorkerJoins tr + 1
  | .joinWorkerTimed _ :: tr => countWorkerJoins tr + 1
  | _ :: tr => countWorkerJoins tr

theorem startWorkers_active_eq (cfg : ThreadPoolConfig) (n : Nat) (s : RegState)
    (h : s.active_workers = s.workers) :
    (startWorkers cfg n s).active_workers = (startWorkers cfg n s).workers := by
  induction n generalizing s with
  | zero => simpa [startWorkers] using h
  | succ k ih =>
    simp only [startWorkers]
    split
    · exact h
    · exact ih _ (by simp [h])

theorem startWorkers_workers_le (cfg : ThreadPoolConfig) (n : Nat) (s : RegState)
    (h : s.workers ≤ cfg.max_workers) :
    (startWorkers cfg n s).workers ≤ cfg.max_workers := by
  induction n generalizing s with
  | zero => simpa [startWorkers] using h
  | succ k ih =>
    simp only [startWorkers]
    split
    · exact h
    · next hlt => exact ih _ (by simp; omega)

theorem startWorkers_workers_ge (cfg : ThreadPoolConfig) (n : Nat) (s : RegState) :
    s.workers ≤ (startWorkers cfg n s).workers := by
  induction n generalizing s with
  | zero => simp [startWorkers]
  | succ k ih =>
    simp only [startWorkers]
    split
    · exact Nat.le_refl _
    · exact Nat.le_trans (by simp) (ih _)

theorem startWorkers_exact (cfg : ThreadPoolConfig) (n : Nat) (s : RegState)
    (h : s.workers + n ≤ cfg.max_workers) :
    (startWorkers cfg n s).workers = s.workers + n := by
  induction n generalizing s with
  | zero => simp [startWorkers]
  | succ k ih =>
    simp only [startWorkers]
    split
    · omega
    · rw [ih _ (by simp; omega)]
      simp; omega

/-- Every reachable registry state satisfies the invariant. -/
theorem reachableReg_inv (cfg : ThreadPoolConfig) (hv : ConfigValid cfg)
    (s : RegState) (hr : ReachableReg cfg s) : RegInv cfg s := by
  induction hr with
  | init =>
    refine ⟨?_, ?_, ?_⟩
    · have hx := startWorkers_exact cfg cfg.min_workers initRegState
        (by simpa [initRegState] using hv.2.2)
      have h0 : initRegState.workers = 0 := rfl
      omega
    · exact startWorkers_workers_le cfg _ _ (by simp [initRegState])
    · exact startWorkers_active_eq cfg _ _ (by simp [initRegState])
  | grow hr hs ih =>
    obtain ⟨h1, h2, h3⟩ := ih
    unfold submitGrowth
    split
    · next hc =>
      refine ⟨Nat.le_trans h1 (startWorkers_workers_ge cfg 1 _), ?_, ?_⟩
      · exact startWorkers_workers_le cfg 1 _ h2
      · exact startWorkers_active_eq cfg 1 _ h3
    · exact ⟨h1, h2, h3⟩
  | retire hr ih =>
    obtain ⟨h1, h2, h3⟩ := ih
    unfold retireWorker
    split
    · next hc => exact ⟨by simp; omega, by simp; omega, by simp; omega⟩
    · exact ⟨h1, h2, h3⟩
  | shutdown hr ih =>
    obtain ⟨h1, h2, h3⟩ := ih
    exact ⟨h1, h2, h3⟩

theorem takeWhile_append_of_all {α : Type} (p : α → Bool) (l1 l2 : List α)
    (h : ∀ e ∈ l1, p e = true) :
    (l1 ++ l2).takeWhile p = l1 ++ l2.takeWhile p := by
  induction l1 with
  | nil => simp
  | cons a l ih =>
    have ha : p a = true := h a (by simp)
    simp [List.takeWhile, ha]
    exact ih fun e he => h e (by simp [he])

/-- When `_active_workers` equals `len(_workers)`, the growth check
`_active_workers < len(_workers)` in `submit` fails, so no worker is
started. -/
theorem submitGrowth_eq_of_active_eq (cfg : ThreadPoolConfig) (s : RegState)
    (h : s.active_workers = s.workers) : submitGrowth cfg s = s := by
  unfold submitGrowth
  split
  · next hc => omega
  · rfl

/-! ### Claims -/

/-- C1: the spec's dynamic-growth rule — on a successful enqueue with
`total_workers < max_workers` and all workers busy, start one worker; in
the scaling scenario (`min_workers = 1`, `max_workers = 4`, unbounded
queue, 10 submissions of slow tasks) `total_workers` should reach 4.
The code's growth guard is
`self._active_workers < len(self._workers)`, which never holds because
the two quantities are incremented and decremented together, so no
submission ever starts an extra worker: after any number of submissions
the pool still has exactly 1 worker, never 4. -/
theorem c1_no_dynamic_growth :
    (∀ q : List (QTask Nat),
      queueFull { min_workers := 1, max_workers := 4, queue_size := 0 } q = false) ∧
    (∀ n : Nat,
      (Nat.iterate (submitGrowth { min_workers := 1, max_workers := 4, queue_size := 0 })
        n
        (startWorkers { min_workers := 1, max_workers := 4, queue_size := 0 }
          (ThreadPoolConfig.min_workers
            { min_workers := 1, max_workers := 4, queue_size := 0 })
          initRegState)).workers = 1) ∧
    (Nat.iterate (submitGrowth { min_workers := 1, max_workers := 4, queue_size := 0 })
      10
      (startWorkers { min_workers := 1, max_workers := 4, queue_size := 0 }
        (ThreadPoolConfig.min_workers
          { min_workers := 1, max_workers := 4, queue_size := 0 })
        initRegState)).workers = 1 ∧ 1 < 4 := by
  have hfix :
      submitGrowth { min_workers := 1, max_workers := 4, queue_size := 0 }
        (startWorkers { min_workers := 1, max_workers := 4, queue_size := 0 }
          (ThreadPoolConfig.min_workers
            { min_workers := 1, max_workers := 4, queue_size := 0 })
          initRegState) =
      startWorkers { min_workers := 1, max_workers := 4, queue_size := 0 }
        (ThreadPoolConfig.min_workers
          { min_workers := 1, max_workers := 4, queue_size := 0 })
        initRegState := by decide
  refine ⟨fun q => by simp [queueFull], ?_, ?_, by omega⟩
  · intro n
    rw [Function.iterate_fixed hfix]
    decide
  · rw [Function.iterate_fixed hfix]
    decide

/-- C4: in every reachable registry state of a validly configured pool
that has not been shut down, the worker count stays within
`min_workers ≤ total_workers ≤ max_workers`: `_start_workers` breaks
before exceeding the maximum and the recycle branch retires a worker
only when the count exceeds the minimum. -/
theorem c4_worker_count_bounds (cfg : ThreadPoolConfig) (s : RegState)
    (hv : ConfigValid cfg) (hr : ReachableReg cfg s)
    (_hs : s.shutdownFlag = false) :
    cfg.min_workers ≤ s.workers ∧ s.workers ≤ cfg.max_workers := by
  have h := reachableReg_inv cfg hv s hr
  exact ⟨h.1, h.2.1⟩

/-- Witness for C4 at the freshly constructed pool with
`min_workers = 1`, `max_workers = 4`. -/
theorem c4_worker_count_bounds_witness :
    ConfigValid { min_workers := 1, max_workers := 4, queue_size := 0 } ∧
    (ThreadPoolConfig.min_workers { min_workers := 1, max_workers := 4, queue_size := 0 } ≤
        (startWorkers { min_workers := 1, max_workers := 4, queue_size := 0 } 1
          initRegState).workers ∧
      (startWorkers { min_workers := 1, max_workers := 4, queue_size := 0 } 1
          initRegState).workers ≤
        ThreadPoolConfig.max_workers { min_workers := 1, max_workers := 4, queue_size := 0 }) :=
  ⟨by decide,
    c4_worker_count_bounds { min_workers := 1, max_workers := 4, queue_size := 0 }
      (startWorkers { min_workers := 1, max_workers := 4, queue_size := 0 } 1 initRegState)
      (by decide) (ReachableReg.init) (by decide)⟩

/-- C10: in every reachable registry state, `_active_workers` equals
`len(self._workers)` — both change together in `_start_workers` and the
recycle branch — so every metrics snapshot reports
`active_workers = total_workers` and the growth condition
`_active_workers < len(_workers)` in `submit`/`submit_async` never
fires. -/
theorem c10_active_equals_total (cfg : ThreadPoolConfig) (s : RegState)
    (hv : ConfigValid cfg) (hr : ReachableReg cfg s) :
    s.active_workers = s.workers ∧
    decide (s.active_workers < s.workers) = false ∧
    (∀ queueLen completed failed rejected m,
        getMetrics cfg s queueLen completed failed rejected = some m →
          m.active_workers = m.total_workers) ∧
    submitGrowth cfg s = s := by
  have h := (reachableReg_inv cfg hv s hr).2.2
  refine ⟨h, by simp [h], ?_, submitGrowth_eq_of_active_eq cfg s h⟩
  intro queueLen completed failed rejected m hm
  unfold getMetrics at hm
  split at hm
  · exact absurd hm (by simp)
  · cases hm
    simpa using h

/-- Witness for C10 at the freshly constructed pool with
`min_workers = 1`, `max_workers = 4`, metrics enabled. -/
theorem c10_active_equals_total_witness :
    (startWorkers { min_workers := 1, max_workers := 4, enable_metrics := true } 1
        initRegState).active_workers =
      (startWorkers { min_workers := 1, max_workers := 4, enable_metrics := true } 1
        initRegState).workers ∧
    decide
        ((startWorkers { min_workers := 1, max_workers := 4, enable_metrics := true } 1
            initRegState).active_workers <
          (startWorkers { min_workers := 1, max_workers := 4, enable_metrics := true } 1
            initRegState).workers) = false ∧
    (∀ queueLen completed failed rejected m,
        getMetrics { min_workers := 1, max_workers := 4, enable_metrics := true }
            (startWorkers { min_workers := 1, max_workers := 4, enable_metrics := true } 1
              initRegState) queueLen completed failed rejected = some m →
          m.active_workers = m.total_workers) ∧
    submitGrowth { min_workers := 1, max_workers := 4, enable_metrics := true }
        (startWorkers { min_workers := 1, max_workers := 4, enable_metrics := true } 1
          initRegState) =
      startWorkers { min_workers := 1, max_workers := 4, enable_metrics := true } 1
        initRegState := by
  have h :=
    c10_active_equals_total { min_workers := 1, max_workers := 4, enable_metrics := true }
      (startWorkers { min_workers := 1, max_workers := 4, enable_metrics := true } 1
        initRegState)
      (by decide) (ReachableReg.init)
  simpa using h

/-- C6: `shutdown()` is idempotent — the second call sees
`self._shutdown` already set and returns at once, so the observable
state after two calls equals the state after one, the second call emits
no events at all, and no worker is joined a second time. -/
theorem c6_shutdown_idempotent (wait : Bool) (timeout cfgTimeout : Option Nat)
    (s : ShutState) :
    (shutdownStep wait timeout cfgTimeout
        (shutdownStep wait timeout cfgTimeout s).1).1 =
      (shutdownStep wait timeout cfgTimeout s).1 ∧
    (shutdownStep wait timeout cfgTimeout
        (shutdownStep wait timeout cfgTimeout s).1).2 = [] ∧
    countWorkerJoins
        ((shutdownStep wait timeout cfgTimeout s).2 ++
          (shutdownStep wait timeout cfgTimeout
            (shutdownStep wait timeout cfgTimeout s).1).2) =
      countWorkerJoins (shutdownStep wait timeout cfgTimeout s).2 := by
  cases hflag : s.shutdownFlag <;>
    simp [shutdownStep, hflag]

/-- C2: when a timed task's join elapses before the body finishes
(`doneWithin = false` models the worker observing an unfinished result
container), the future is resolved with the timeout error by a single
write; the background thread only ever writes into the local container,
so whatever outcome the body later produces never reaches the future —
the execution result is identical for every body outcome — and on every
path `_execute_sync_task` performs at most one future transition. -/
theorem c2_timeout_exactly_once (α : Type) (cfg : ThreadPoolConfig) (t : Nat)
    (o : TaskOutcome α) :
    (executeSyncTask cfg (FutureState.pending) (some t) false o).fut =
      FutureState.error (.taskTimeout t) ∧
    (executeSyncTask cfg (FutureState.pending) (some t) false o).writes =
      [FWrite.error (.taskTimeout t)] ∧
    (∀ o2 : TaskOutcome α,
      executeSyncTask cfg (FutureState.pending) (some t) false o2 =
        executeSyncTask cfg (FutureState.pending) (some t) false o) ∧
    (∀ (fut : FutureState α) (timeout : Option Nat) (dw : Bool)
        (o2 : TaskOutcome α),
      (executeSyncTask cfg fut timeout dw o2).writes.length ≤ 1) := by
  refine ⟨rfl, rfl, fun o2 => rfl, ?_⟩
  intro fut timeout dw o2
  unfold executeSyncTask
  cases fut <;> cases timeout <;> cases dw <;> cases o2 <;>
    simp [FutureState.isCancelled]

/-- C3 counterexample: with `reject_policy = abort` and a bounded queue
of capacity 1 already holding one task, `submit_async` on a pool that is
not shut down raises `RejectedExecutionError` synchronously to the
caller (`_handle_reject` puts it on the future and `submit_async`
re-raises `task.future.exception()`), so a full queue does throw
synchronously even though no shutdown-state violation occurred. -/
theorem c3_full_queue_raises_counterexample :
    submitAsync { queue_size := 1, reject_policy := .abort } false
        [{ future := .pending, is_coroutine := false, timeout := none,
           body := TaskOutcome.ok (0 : Nat) }]
        (TaskOutcome.ok 1) =
      AsyncOutcome.raised .rejectedQueueFull ∧
    decide (PoolError.rejectedQueueFull = PoolError.shutdownError) = false := by
  decide

/-- C3 amended: the synchronous `submit` never throws on a full queue —
rejection is always delivered through the returned future per policy —
and throws exactly the shutdown error when the pool is shut down;
`submit_async`, by contrast, re-raises the rejection outcome at the call
site when the queue is full. -/
theorem c3_submit_never_raises_on_full (α : Type) (cfg : ThreadPoolConfig)
    (q : List (QTask α)) (body : TaskOutcome α) :
    (submit cfg false q body).isRaised = false ∧
    submit cfg true q body = SubmitOutcome.raised .shutdownError := by
  constructor
  · unfold submit
    simp only [if_neg (by simp : ¬(false = true))]
    split <;> rfl
  · rfl

/-- C5 counterexample: `shutdown(wait=False)` on a running pool with one
live worker stops the event loop without ever joining (waiting for) any
worker thread: the trace contains `stopLoop` but no join event for
worker 0, so the cooperative context is not stopped "only after all
workers have stopped" for every wait/timeout combination. -/
theorem c5_loop_stop_counterexample :
    ShutdownEvent.stopLoop ∈
      (shutdownStep false none none
        { shutdownFlag := false, loopOpen := true, workers := [0] }).2 ∧
    List.contains
        ((shutdownStep false none none
          { shutdownFlag := false, loopOpen := true, workers := [0] }).2)
        (ShutdownEvent.joinWorkerBlocking 0) = false ∧
    List.contains
        ((shutdownStep false none none
          { shutdownFlag := false, loopOpen := true, workers := [0] }).2)
        (ShutdownEvent.joinWorkerTimed 0) = false := by
  decide

/-- C5 amended: for `shutdown(wait=True)` with no effective timeout
(argument and configured timeout both absent) on a running pool with an
open event loop, every worker is joined with a blocking `join()` before
the `stopLoop` event, so the cooperative scheduling context is stopped
only after all workers have stopped; with `wait=False` (or a timed
join) this ordering is not guaranteed. -/
theorem c5_loop_stopped_after_joins (s : ShutState)
    (h1 : s.shutdownFlag = false) (h2 : s.loopOpen = true) :
    ShutdownEvent.stopLoop ∈ (shutdownStep true none none s).2 ∧
    ∀ id ∈ s.workers,
      ShutdownEvent.joinWorkerBlocking id ∈
        beforeStop (shutdownStep true none none s).2 := by
  have htr : (shutdownStep true none none s).2 =
      (ShutdownEvent.setShutdownEvent :: ShutdownEvent.notifyAll ::
        ShutdownEvent.queueJoin ::
          s.workers.map (fun id => ShutdownEvent.joinWorkerBlocking id)) ++
        [ShutdownEvent.stopLoop, ShutdownEvent.joinLoopThread] := by
    simp [shutdownStep, h1, h2]
  rw [htr]
  constructor
  · simp
  · intro id hid
    unfold beforeStop
    rw [takeWhile_append_of_all]
    · simp [List.takeWhile, ShutdownEvent.isStopLoop]
      exact hid
    · intro e he
      simp at he
      rcases he with h | h | h | ⟨a, _, h⟩ <;> subst h <;> rfl

/-- Witness for C5 amended at a pool with two workers. -/
theorem c5_loop_stopped_after_joins_witness :
    ShutdownEvent.stopLoop ∈
      (shutdownStep true none none
        { shutdownFlag := false, loopOpen := true, workers := [0, 1] }).2 ∧
    ∀ id ∈ ([0, 1] : List Nat),
      ShutdownEvent.joinWorkerBlocking id ∈
        beforeStop
          (shutdownStep true none none
            { shutdownFlag := false, loopOpen := true, workers := [0, 1] }).2 :=
  c5_loop_stopped_after_joins
    { shutdownFlag := false, loopOpen := true, workers := [0, 1] } rfl rfl

/-- C7: under DiscardOldest, `_handle_reject` on a non-empty queue pops
the oldest task, cancels its future (a pending future becomes
cancelled) and enqueues the new task at the tail; on an empty queue
(a worker drained it concurrently) the new task's future is resolved
with the `RejectedExecutionError` fallback. -/
theorem c7_discard_oldest (α : Type) (cfg : ThreadPoolConfig)
    (task : QTask α) (hp : cfg.reject_policy = .discardOldest) :
    (∀ (old : QTask α) (rest : List (QTask α)),
      handleReject cfg (old :: rest) task =
        { queue := rest ++ [task], taskFuture := task.future,
          poppedFuture := some (futureCancel old.future),
          rejectedDelta := 1 }) ∧
    (∀ (old : QTask α) (rest : List (QTask α)), old.future = .pending →
      (handleReject cfg (old :: rest) task).poppedFuture =
        some FutureState.cancelled) ∧
    handleReject cfg [] task =
      { queue := [], taskFuture := .error .rejectedDiscardFailed,
        poppedFuture := none, rejectedDelta := 1 } := by
  refine ⟨?_, ?_, ?_⟩
  · intro old rest
    unfold handleReject
    rw [hp]
  · intro old rest hold
    unfold handleReject
    rw [hp]
    simp [hold, futureCancel]
  · unfold handleReject
    rw [hp]

/-- Witness for C7 with a capacity-1 queue holding one pending task. -/
theorem c7_discard_oldest_witness :
    (∀ (old : QTask Nat) (rest : List (QTask Nat)),
      handleReject { queue_size := 1, reject_policy := .discardOldest }
          (old :: rest)
          { future := .pending, is_coroutine := false, timeout := none,
            body := TaskOutcome.ok 7 } =
        { queue := rest ++
            [{ future := .pending, is_coroutine := false, timeout := none,
               body := TaskOutcome.ok 7 }],
          taskFuture := FutureState.pending,
          poppedFuture := some (futureCancel old.future),
          rejectedDelta := 1 }) ∧
    (∀ (old : QTask Nat) (rest : List (QTask Nat)), old.future = .pending →
      (handleReject { queue_size := 1, reject_policy := .discardOldest }
          (old :: rest)
          { future := .pending, is_coroutine := false, timeout := none,
            body := TaskOutcome.ok 7 }).poppedFuture =
        some FutureState.cancelled) ∧
    handleReject { queue_size := 1, reject_policy := .discardOldest } []
        { future := .pending, is_coroutine := false, timeout := none,
          body := TaskOutcome.ok 7 } =
      { queue := [], taskFuture := .error .rejectedDiscardFailed,
        poppedFuture := none, rejectedDelta := 1 } :=
  c7_discard_oldest Nat { queue_size := 1, reject_policy := .discardOldest }
    { future := .pending, is_coroutine := false, timeout := none,
      body := TaskOutcome.ok 7 } rfl

/-- C8 counterexample: a task whose future was already cancelled before
it was dequeued (pre-start cancellation is allowed) and is claimed after
shutdown is not executed, but its future stays `cancelled` — it is not
resolved with the `ThreadPoolShutdownError` the claim promises for
every dequeued task. -/
theorem c8_cancelled_task_counterexample :
    (workerPostDequeue {} true
        { future := FutureState.cancelled, is_coroutine := false,
          timeout := none, body := TaskOutcome.ok (0 : Nat) } false).executed =
      false ∧
    (workerPostDequeue {} true
        { future := FutureState.cancelled, is_coroutine := false,
          timeout := none, body := TaskOutcome.ok (0 : Nat) } false).fut =
      FutureState.cancelled ∧
    decide
        ((workerPostDequeue {} true
            { future := FutureState.cancelled, is_coroutine := false,
              timeout := none, body := TaskOutcome.ok (0 : Nat) } false).fut =
          FutureState.error .shutdownError) = false := by
  decide

/-- C8 amended: a task dequeued after the shutdown event is set is never
executed and `task_done` is still called; if its future is still
pending it is resolved with `ThreadPoolShutdownError`, and if it was
already cancelled it stays cancelled — in either case the future is not
left pending. -/
theorem c8_shutdown_drain (α : Type) (cfg : ThreadPoolConfig)
    (task : QTask α) (dw : Bool)
    (hf : task.future = FutureState.pending ∨
      task.future = FutureState.cancelled) :
    (workerPostDequeue cfg true task dw).executed = false ∧
    (workerPostDequeue cfg true task dw).taskDoneCalled = true ∧
    (task.future = FutureState.pending →
      (workerPostDequeue cfg true task dw).fut =
        FutureState.error .shutdownError) ∧
    FutureState.isPending (workerPostDequeue cfg true task dw).fut
      = false := by
  rcases hf with hf | hf <;>
    simp [workerPostDequeue, hf, FutureState.isCancelled, setException,
      FutureState.isPending]

/-- Witness for C8 amended with a pending sync task. -/
theorem c8_shutdown_drain_witness :
    (workerPostDequeue {} true
        { future := FutureState.pending, is_coroutine := false,
          timeout := none, body := TaskOutcome.ok (3 : Nat) } false).executed =
      false ∧
    (workerPostDequeue {} true
        { future := FutureState.pending, is_coroutine := false,
          timeout := none, body := TaskOutcome.ok (3 : Nat) }
        false).taskDoneCalled = true ∧
    (({ future := FutureState.pending, is_coroutine := false, timeout := none,
        body := TaskOutcome.ok (3 : Nat) : QTask Nat }).future =
        FutureState.pending →
      (workerPostDequeue {} true
          { future := FutureState.pending, is_coroutine := false,
            timeout := none, body := TaskOutcome.ok (3 : Nat) } false).fut =
        FutureState.error .shutdownError) ∧
    FutureState.isPending
        (workerPostDequeue {} true
            { future := FutureState.pending, is_coroutine := false,
              timeout := none, body := TaskOutcome.ok (3 : Nat) } false).fut =
      false :=
  c8_shutdown_drain Nat {}
    { future := FutureState.pending, is_coroutine := false, timeout := none,
      body := TaskOutcome.ok 3 } false (Or.inl rfl)

/-- C9: under the Discard policy, `submit_async` on a full queue of a
running pool raises `CancelledError` synchronously: `_handle_reject`
cancels the fresh pending future and the subsequent
`task.future.exception()` call raises on a cancelled future instead of
returning. -/
theorem c9_discard_raises_cancelled (α : Type) (cfg : ThreadPoolConfig)
    (q : List (QTask α)) (body : TaskOutcome α)
    (hp : cfg.reject_policy = .discard) (hf : queueFull cfg q = true) :
    submitAsync cfg false q body = AsyncOutcome.raised .cancelledError := by
  unfold submitAsync
  simp only [if_neg (by simp : ¬(false = true)), hf, if_pos]
  unfold handleReject
  rw [hp]
  rfl

/-- Witness for C9 with a capacity-1 queue holding one task. -/
theorem c9_discard_raises_cancelled_witness :
    queueFull { queue_size := 1, reject_policy := .discard }
        [{ future := .pending, is_coroutine := false, timeout := none,
           body := TaskOutcome.ok (0 : Nat) }] = true ∧
    submitAsync { queue_size := 1, reject_policy := .discard } false
        [{ future := .pending, is_coroutine := false, timeout := none,
           body := TaskOutcome.ok (0 : Nat) }]
        (TaskOutcome.ok 5) =
      AsyncOutcome.raised .cancelledError :=
  ⟨by decide,
    c9_discard_raises_cancelled Nat
      { queue_size := 1, reject_policy := .discard }
      [{ future := .pending, is_coroutine := false, timeout := none,
         body := TaskOutcome.ok 0 }]
      (TaskOutcome.ok 5) rfl (by decide)⟩

end ThreadPoolModel
